import Mathlib

/-! Verification of the handoff lifecycle engine and the autonomy governance
engine of the AgentCraftworks TypeScript sources.

Shallow embedding conventions:
- timestamps are natural numbers (milliseconds since the epoch, the value of
  Date.getTime on the ISO strings the code stores); every clock read the code
  performs is an explicit parameter of the embedded operation;
- generated UUIDs (crypto.randomUUID) are explicit string parameters;
- the two process-wide JavaScript Maps are association lists with the Map
  semantics (set replaces in place, insertion order preserved);
- JSON object values the engine never inspects (outputs, metadata maps) are
  modelled as string-valued association lists;
- a TypeScript function that can throw returns Except String paired with the
  post-call store state; a throw leaves the store exactly as it was. -/

-- ─── Handoff state machine (src/typescript/src/types/handoff.ts, src/typescript/src/utils/handoff-state-machine.ts) ───

/-- The four FSM states (types/handoff.ts, HandoffState). -/
inductive HandoffState where
  | pending
  | active
  | completed
  | failed
deriving DecidableEq, Repr

/-- The string each state is stored as. -/
def stateStr : HandoffState → String
  | .pending => "pending"
  | .active => "active"
  | .completed => "completed"
  | .failed => "failed"

/-- VALID_TRANSITIONS of types/handoff.ts: pending → active|failed, active → completed|failed. -/
def VALID_TRANSITIONS : HandoffState → List HandoffState
  | .pending => [.active, .failed]
  | .active => [.completed, .failed]
  | .completed => []
  | .failed => []

/-- TERMINAL_STATES of types/handoff.ts. -/
def TERMINAL_STATES : List HandoffState := [.completed, .failed]

/-- isValidTransition of handoff-state-machine.ts. -/
def isValidTransition (fromState toState : HandoffState) : Bool :=
  (VALID_TRANSITIONS fromState).contains toState

/-- isTerminalState of handoff-state-machine.ts. -/
def isTerminalState (s : HandoffState) : Bool :=
  TERMINAL_STATES.contains s

/-- validateTransition of handoff-state-machine.ts: throws a dedicated message
for a terminal origin, and an allowed-edge-listing message otherwise. -/
def validateTransition (fromState toState : HandoffState) : Except String Unit :=
  if isTerminalState fromState then
    .error ("Invalid state transition: " ++ stateStr fromState ++
      " is a terminal state, cannot transition to " ++ stateStr toState)
  else if !(isValidTransition fromState toState) then
    .error ("Invalid state transition: " ++ stateStr fromState ++ " → " ++
      stateStr toState ++ ". Allowed transitions from " ++ stateStr fromState ++
      ": [" ++ String.intercalate ", " ((VALID_TRANSITIONS fromState).map stateStr) ++ "]")
  else
    .ok ()

-- ─── Handoff records (src/typescript/src/types/handoff.ts) ───

/-- An attachment value the engine never inspects (JSON in the source). -/
abbrev JsonStr := String

/-- The Handoff record of types/handoff.ts. -/
structure Handoff where
  handoff_id : String
  issue_number : Option Int
  repository_full_name : String
  from_agent : Option String
  to_agent : Option String
  status : HandoffState
  task : String
  context : String
  priority : String
  completed_work : List String
  blockers : List String
  outputs : List (String × JsonStr)
  dependencies : List String
  sla : Option (Nat ⊕ String)
  sla_deadline : Option Nat
  sla_hours : Option Nat
  initiating_comment_id : Option String
  created_at : Nat
  updated_at : Nat
  acknowledged_at : Option Nat
  in_progress_at : Option Nat
  completed_at : Option Nat
  failed_at : Option Nat
  failure_reason : Option String
  teams : List String
  tier : Option String
  metadata : List (String × JsonStr)
  worktree_id : Option String
  worktree_path : Option String
  session_id : Option String
deriving DecidableEq, Repr

/-- CreateHandoffInput of types/handoff.ts (every field may be absent at runtime). -/
structure CreateHandoffInput where
  «to» : Option String := none
  to_agent : Option String := none
  task : Option String := none
  context : Option String := none
  priority : Option String := none
  completed_work : Option (List String) := none
  blockers : Option (List String) := none
  outputs : Option (List (String × JsonStr)) := none
  dependencies : Option (List String) := none
  sla : Option (Nat ⊕ String) := none
deriving Repr

/-- HandoffMetadata of types/handoff.ts. -/
structure HandoffMetadata where
  issue_number : Option Int := none
  repository_full_name : Option String := none
  from_agent : Option String := none
  sla_hours : Option Nat := none
  sla_deadline : Option Nat := none
  comment_id : Option String := none
  prNumber : Option Int := none
  repo : Option String := none
  slaHours : Option Nat := none
  teams : Option (List String) := none
  tier : Option String := none
  additional : Option (List (String × JsonStr)) := none
deriving Repr

/-- StateChange audit record of types/handoff.ts. -/
structure StateChange where
  change_id : String
  handoff_id : String
  from_state : HandoffState
  to_state : HandoffState
  reason : String
  triggered_by : String
  comment_id : Option String
  metadata : List (String × JsonStr)
  created_at : Nat
deriving DecidableEq, Repr

/-- TransitionOptions of types/handoff.ts. -/
structure TransitionOptions where
  reason : Option String := none
  triggeredBy : Option String := none
  metadata : Option (List (String × JsonStr)) := none
  commentId : Option String := none
deriving Repr

-- ─── JavaScript Map as an association list ───

/-- Map.get: first binding of the key. -/
def mapGet (k : String) : List (String × α) → Option α
  | [] => none
  | (k1, v1) :: rest => if k1 = k then some v1 else mapGet k rest

/-- Map.set: replace in place when the key exists (keeping its position),
append otherwise — JavaScript Map insertion-order semantics. -/
def mapSet (k : String) (v : α) : List (String × α) → List (String × α)
  | [] => [(k, v)]
  | (k1, v1) :: rest => if k1 = k then (k, v) :: rest else (k1, v1) :: mapSet k v rest

-- ─── The in-memory handoff service (src/typescript/src/services/context-schemas.ts, handoff part) ───

/-- The two module-level Maps of the handoff service: inMemoryHandoffs and
inMemoryStateChanges. -/
structure SvcState where
  handoffs : List (String × Handoff)
  changes : List (String × List StateChange)
deriving Repr

/-- The service before any call: both Maps empty. -/
def emptySvc : SvcState := ⟨[], []⟩

/-- createHandoff. `handoff_id` stands for the crypto.randomUUID() result,
`now` for the `new Date().toISOString()` read and `tNow` for the later
Date.now() read inside the sla_deadline computation (both clock reads happen
inside one synchronous body). -/
def createHandoff (s : SvcState) (handoff_id : String) (handoffData : CreateHandoffInput)
    (metadata : HandoffMetadata) (now tNow : Nat) : Handoff × SvcState :=
  let repoFullName := (metadata.repository_full_name.or metadata.repo).getD ""
  let slaHours := metadata.sla_hours.or metadata.slaHours
  let slaDeadline := metadata.sla_deadline.or (slaHours.map (fun h => tNow + h * 3600000))
  let record : Handoff := {
    handoff_id := handoff_id
    issue_number := metadata.issue_number.or metadata.prNumber
    repository_full_name := repoFullName
    from_agent := metadata.from_agent
    to_agent := handoffData.«to».or handoffData.to_agent
    status := .pending
    task := handoffData.task.getD ""
    context := handoffData.context.getD ""
    priority := handoffData.priority.getD "medium"
    completed_work := handoffData.completed_work.getD []
    blockers := handoffData.blockers.getD []
    outputs := handoffData.outputs.getD []
    dependencies := handoffData.dependencies.getD []
    sla := handoffData.sla.or (slaHours.map Sum.inl)
    sla_deadline := slaDeadline
    sla_hours := slaHours
    initiating_comment_id := metadata.comment_id
    created_at := now
    updated_at := now
    acknowledged_at := none
    in_progress_at := none
    completed_at := none
    failed_at := none
    failure_reason := none
    teams := metadata.teams.getD []
    tier := metadata.tier
    metadata := metadata.additional.getD []
    worktree_id := none
    worktree_path := none
    session_id := none }
  (record, { handoffs := mapSet handoff_id record s.handoffs,
             changes := mapSet handoff_id [] s.changes })

/-- getHandoff: Map lookup, null when absent. -/
def getHandoff (s : SvcState) (handoff_id : String) : Option Handoff :=
  mapGet handoff_id s.handoffs

/-- The timestamp/failure side effects of the transitionHandoff switch. -/
def applyTransitionUpdates (handoff : Handoff) (toState : HandoffState)
    (options : TransitionOptions) (now : Nat) : Handoff :=
  let base := { handoff with status := toState, updated_at := now }
  match toState with
  | .active => { base with in_progress_at := some now }
  | .completed => { base with completed_at := some now }
  | .failed => { base with failed_at := some now,
                           failure_reason := some (options.reason.getD "error:unknown") }
  | .pending => base

/-- transitionHandoff. `change_id` stands for the crypto.randomUUID() of the
StateChange; `now` for the clock reads of the call (the body reads the clock
twice inside one synchronous step). A throw is an error value and the state
component is the untouched input state. -/
def transitionHandoff (s : SvcState) (handoff_id : String) (toState : HandoffState)
    (options : TransitionOptions) (change_id : String) (now : Nat) :
    Except String (Handoff × StateChange) × SvcState :=
  match getHandoff s handoff_id with
  | none => (.error ("Handoff not found: " ++ handoff_id), s)
  | some handoff =>
    let fromState := handoff.status
    if !(isValidTransition fromState toState) then
      (.error ("Invalid state transition: " ++ stateStr fromState ++ " → " ++ stateStr toState), s)
    else
      let stateChange : StateChange := {
        change_id := change_id
        handoff_id := handoff_id
        from_state := fromState
        to_state := toState
        reason := options.reason.getD "unknown"
        triggered_by := options.triggeredBy.getD "system"
        comment_id := options.commentId
        metadata := options.metadata.getD []
        created_at := now }
      let updatedHandoff := applyTransitionUpdates handoff toState options now
      (.ok (updatedHandoff, stateChange),
       { handoffs := mapSet handoff_id updatedHandoff s.handoffs,
         changes := mapSet handoff_id ((mapGet handoff_id s.changes).getD [] ++ [stateChange]) s.changes })

/-- acceptHandoff: pending → active with reason agent_accepted; null for an
unknown id; a transition failure propagates. -/
def acceptHandoff (s : SvcState) (handoff_id : String) (acceptedBy : Option String)
    (change_id : String) (now : Nat) : Except String (Option Handoff) × SvcState :=
  match getHandoff s handoff_id with
  | none => (.ok none, s)
  | some _ =>
    match transitionHandoff s handoff_id .active
      { reason := some "agent_accepted", triggeredBy := some (acceptedBy.getD "system"),
        metadata := some [("acceptedBy", acceptedBy.getD "")] } change_id now with
    | (.error e, s1) => (.error e, s1)
    | (.ok r, s1) => (.ok (some r.1), s1)

/-- HandoffUpdates: the explicit allow-list of non-state columns updateHandoff
copies (an absent field is a key not present in the partial object). -/
structure HandoffUpdates where
  task : Option String := none
  context : Option String := none
  priority : Option String := none
  outputs : Option (List (String × JsonStr)) := none
  blockers : Option (List String) := none
  completed_work : Option (List String) := none
  dependencies : Option (List String) := none
  metadata : Option (List (String × JsonStr)) := none
  worktree_id : Option (Option String) := none
  worktree_path : Option (Option String) := none
  session_id : Option (Option String) := none
deriving Repr

/-- updateHandoff: copies only the safe columns present in the update, always
refreshes updated_at; null for an unknown id. -/
def updateHandoff (s : SvcState) (handoff_id : String) (updates : HandoffUpdates)
    (now : Nat) : Option Handoff × SvcState :=
  match mapGet handoff_id s.handoffs with
  | none => (none, s)
  | some handoff =>
    let updated : Handoff := { handoff with
      task := updates.task.getD handoff.task
      context := updates.context.getD handoff.context
      priority := updates.priority.getD handoff.priority
      outputs := updates.outputs.getD handoff.outputs
      blockers := updates.blockers.getD handoff.blockers
      completed_work := updates.completed_work.getD handoff.completed_work
      dependencies := updates.dependencies.getD handoff.dependencies
      metadata := updates.metadata.getD handoff.metadata
      worktree_id := updates.worktree_id.getD handoff.worktree_id
      worktree_path := updates.worktree_path.getD handoff.worktree_path
      session_id := updates.session_id.getD handoff.session_id
      updated_at := now }
    (some updated, { s with handoffs := mapSet handoff_id updated s.handoffs })

/-- completeHandoff: fast-tracks a pending handoff through active (reason
agent_accepted), merges outputs when supplied, then transitions to completed
(reason work_completed). `cid1`/`cid2` stand for the UUIDs of the up to two
StateChanges; `now` for the clock reads of the call. -/
def completeHandoff (s : SvcState) (handoff_id : String)
    (outputs : Option (List (String × JsonStr))) (cid1 cid2 : String) (now : Nat) :
    Except String (Option Handoff) × SvcState :=
  match getHandoff s handoff_id with
  | none => (.ok none, s)
  | some handoff =>
    let step1 : Except String Unit × SvcState :=
      if handoff.status = .pending then
        match transitionHandoff s handoff_id .active
          { reason := some "agent_accepted", triggeredBy := some "system" } cid1 now with
        | (.error e, s1) => (.error e, s1)
        | (.ok _, s1) => (.ok (), s1)
      else (.ok (), s)
    match step1 with
    | (.error e, s1) => (.error e, s1)
    | (.ok _, s1) =>
      let s2 := match outputs with
        | some o => (updateHandoff s1 handoff_id { outputs := some o } now).2
        | none => s1
      match transitionHandoff s2 handoff_id .completed
        { reason := some "work_completed", triggeredBy := some "system" } cid2 now with
      | (.error e, s3) => (.error e, s3)
      | (.ok r, s3) => (.ok (some r.1), s3)

/-- failHandoff: transition to failed; the reason defaults to "unknown". -/
def failHandoff (s : SvcState) (handoff_id : String) (change_id : String) (now : Nat)
    (reason : String := "unknown") : Except String Handoff × SvcState :=
  match transitionHandoff s handoff_id .failed
    { reason := some reason, triggeredBy := some "system" } change_id now with
  | (.error e, s1) => (.error e, s1)
  | (.ok r, s1) => (.ok r.1, s1)

/-- abandonHandoff: failHandoff with the reason prefixed "abandoned:"; the
reason defaults to "PR closed or cancelled". -/
def abandonHandoff (s : SvcState) (handoff_id : String) (change_id : String) (now : Nat)
    (reason : String := "PR closed or cancelled") : Except String Handoff × SvcState :=
  failHandoff s handoff_id change_id now ("abandoned:" ++ reason)

/-- getStateChangeHistory: the audit list, empty when absent. -/
def getStateChangeHistory (s : SvcState) (handoff_id : String) : List StateChange :=
  (mapGet handoff_id s.changes).getD []

-- ─── Listing and statistics (context-schemas.ts, handoff part) ───

/-- HandoffFilters of types/handoff.ts. Status names travel as plain strings
at runtime, so both the canonical and the tracker-style fields are strings. -/
structure HandoffFilters where
  status : Option String := none
  to_agent : Option String := none
  from_agent : Option String := none
  repository_full_name : Option String := none
  state : Option String := none
  repo : Option String := none
deriving Repr

/-- JavaScript truthiness on an optional string: undefined and "" are falsy. -/
def truthyStr : Option String → Option String
  | none => none
  | some s => if s = "" then none else some s

/-- mapTrackerState: old tracker states onto the 4-state FSM. The source maps
"overdue" to an explicitly-undefined entry, and the trailing `?? state`
restores the input — so "overdue" (and any unknown name) passes through
unchanged. A falsy input gives undefined. -/
def mapTrackerState : Option String → Option String
  | none => none
  | some s =>
    if s = "" then none
    else some (match s with
      | "created" => "pending"
      | "initiated" => "pending"
      | "accepted" => "active"
      | "rejected" => "failed"
      | "completed" => "completed"
      | "abandoned" => "failed"
      | other => other)

/-- Newest-created-first comparator of listHandoffs
(`(a, b) => getTime(b.created_at) - getTime(a.created_at)`). -/
def newestFirst (a b : Handoff) : Prop := b.created_at ≤ a.created_at

instance : DecidableRel newestFirst := fun a b => Nat.decLe b.created_at a.created_at

instance : IsTotal Handoff newestFirst := ⟨fun a b => Nat.le_total b.created_at a.created_at⟩

instance : IsTrans Handoff newestFirst := ⟨fun _ _ _ h1 h2 => Nat.le_trans h2 h1⟩

/-- The conjunction of the four optional filters of listHandoffs. -/
def passesFilters (status toAgent fromAgent repoFullName : Option String) (h : Handoff) : Bool :=
  (match status with | none => true | some st => stateStr h.status = st) &&
  (match toAgent with | none => true | some a => h.to_agent = some a) &&
  (match fromAgent with | none => true | some a => h.from_agent = some a) &&
  (match repoFullName with | none => true | some r => h.repository_full_name = r)

/-- listHandoffs: normalizes tracker-style filter names, filters the stored
values, sorts newest-created-first (a stable comparator sort in the source,
modelled by insertion sort). -/
def listHandoffs (s : SvcState) (filters : HandoffFilters) : List Handoff :=
  let status := truthyStr (filters.status.or (mapTrackerState filters.state))
  let toAgent := truthyStr filters.to_agent
  let fromAgent := truthyStr filters.from_agent
  let repoFullName := truthyStr (filters.repository_full_name.or filters.repo)
  let results := (s.handoffs.map Prod.snd).filter
    (passesFilters status toAgent fromAgent repoFullName)
  List.insertionSort newestFirst results

/-- HandoffStats of types/handoff.ts; the by-status and by-priority objects
are modelled as count functions, the compliance rate as an exact rational. -/
structure HandoffStats where
  total : Nat
  byStatus : HandoffState → Nat
  byPriority : String → Nat
  avgCompletionTime : Option Int
  slaComplianceRate : ℚ

/-- The filter getHandoffStats builds its `completed` list with. -/
def isCompletedWithTimestamp (h : Handoff) : Bool :=
  h.status = .completed && h.completed_at.isSome

/-- The within-SLA filter of getHandoffStats: no deadline counts as compliant,
otherwise completed_at ≤ sla_deadline (completed_at is present by the outer
filter; getD 0 mirrors the non-null assertion). -/
def isWithinSla (h : Handoff) : Bool :=
  match h.sla_deadline with
  | none => true
  | some d => h.completed_at.getD 0 ≤ d

/-- getHandoffStats. Math.round(x) over the nonnegative ratios involved is
`round` on ℚ; avgCompletionTime keeps the signed integer difference of the
two getTime values. -/
def getHandoffStats (s : SvcState) : HandoffStats :=
  let allHandoffs := s.handoffs.map Prod.snd
  let completed := allHandoffs.filter isCompletedWithTimestamp
  let avgCompletionTime : Option Int :=
    if completed.length = 0 then none
    else
      let totalTime : Int :=
        completed.foldl (fun sum h => sum + ((h.completed_at.getD 0 : Int) - (h.created_at : Int))) 0
      some (round ((totalTime : ℚ) / (completed.length : ℚ)))
  let slaComplianceRate : ℚ :=
    if completed.length = 0 then 0
    else
      let withinSla := (completed.filter isWithinSla).length
      ((round (((withinSla : ℚ) / (completed.length : ℚ)) * 10000) : ℚ)) / 100
  { total := allHandoffs.length
    byStatus := fun st => (allHandoffs.filter (fun h => h.status = st)).length
    byPriority := fun p => (allHandoffs.filter (fun h => h.priority = p)).length
    avgCompletionTime := avgCompletionTime
    slaComplianceRate := slaComplianceRate }

-- ─── Autonomy types (src/typescript/src/types/autonomy.ts) ───

/-- Action classification tiers T1..T5. -/
inductive ActionTier where
  | T1
  | T2
  | T3
  | T4
  | T5
deriving DecidableEq, Repr

/-- Environment tiers with increasing restriction. -/
inductive EnvironmentTier where
  | envLocal
  | dev
  | staging
  | production
deriving DecidableEq, Repr

/-- ENV_MAX_LEVELS: maximum autonomy level per environment tier. -/
def ENV_MAX_LEVELS : EnvironmentTier → Nat
  | .envLocal => 5
  | .dev => 5
  | .staging => 4
  | .production => 3

-- ─── Action classifier (src/typescript/src/services/action-classifier.ts) ───

/-- TierDetails of action-classifier.ts. -/
structure TierDetails where
  level : Nat
  name : String
  description : String
  requiredDialLevel : Nat
deriving DecidableEq, Repr

/-- ACTION_TIERS: the five tier definitions. -/
def ACTION_TIERS : ActionTier → TierDetails
  | .T1 => { level := 1, name := "Read-Only",
             description := "View files, read comments, inspect repository state",
             requiredDialLevel := 1 }
  | .T2 => { level := 2, name := "Informational",
             description := "Post comments, create discussions, add reactions",
             requiredDialLevel := 2 }
  | .T3 => { level := 3, name := "Modify",
             description := "Edit files, create branches, update issues/PRs",
             requiredDialLevel := 3 }
  | .T4 => { level := 4, name := "Commit",
             description := "Push commits, create PRs, request reviews",
             requiredDialLevel := 4 }
  | .T5 => { level := 5, name := "Merge/Deploy",
             description := "Merge PRs, deploy code, delete branches",
             requiredDialLevel := 5 }

/-- ACTION_TYPE_MAP: the full action catalog of action-classifier.ts. -/
def ACTION_TYPE_MAP : List (String × ActionTier) := [
  ("view_file", .T1), ("read_comment", .T1), ("list_files", .T1), ("get_pr", .T1),
  ("get_issue", .T1), ("get_commit", .T1), ("list_branches", .T1), ("list_commits", .T1),
  ("view_logs", .T1), ("get_status", .T1), ("inspect_config", .T1), ("read_content", .T1),
  ("view_diff", .T1), ("get_review", .T1), ("list_reviews", .T1),
  ("post_comment", .T2), ("create_discussion", .T2), ("add_reaction", .T2),
  ("update_comment", .T2), ("post_review_comment", .T2), ("suggest_change", .T2),
  ("add_label", .T2), ("remove_label", .T2), ("ci_lint_fix", .T2), ("ci_issue_file", .T2),
  ("edit_file", .T3), ("create_file", .T3), ("delete_file", .T3), ("create_branch", .T3),
  ("update_issue", .T3), ("update_pr", .T3), ("update_title", .T3),
  ("update_description", .T3), ("create_issue", .T3), ("close_issue", .T3),
  ("reopen_issue", .T3), ("assign_user", .T3), ("request_changes", .T3),
  ("ci_type_fix", .T3), ("ci_test_fix", .T3), ("ci_build_fix", .T3),
  ("push_commit", .T4), ("create_pr", .T4), ("request_review", .T4), ("approve_pr", .T4),
  ("update_pr_branch", .T4), ("force_push", .T4), ("create_tag", .T4),
  ("create_release", .T4), ("ci_security_escalate", .T4),
  ("merge_pr", .T5), ("delete_branch", .T5), ("deploy", .T5), ("publish_release", .T5),
  ("revert_commit", .T5), ("cherry_pick", .T5), ("force_merge", .T5),
  ("emergency_rollback", .T5)]

/-- The toLowerCase().trim() normalization; String.trim of the runtime strips
whitespace from both ends, toLowerCase lowercases characterwise. -/
def normalizeAction (s : String) : String :=
  let lowered := s.data.map Char.toLower
  ⟨((lowered.dropWhile Char.isWhitespace).reverse.dropWhile Char.isWhitespace).reverse⟩

/-- ClassifyResult of action-classifier.ts. -/
structure ClassifyResult where
  tier : ActionTier
  tierDetails : TierDetails
  actionType : String
  isKnownAction : Bool
deriving DecidableEq, Repr

/-- classifyAction: case-insensitive catalog lookup; unknown actions default
to T3 with isKnownAction false; empty input throws. -/
def classifyAction (actionType : String) : Except String ClassifyResult :=
  if actionType = "" then .error "Action type must be a non-empty string"
  else
    let normalized := normalizeAction actionType
    match List.lookup normalized ACTION_TYPE_MAP with
    | none =>
      .ok { tier := .T3, tierDetails := ACTION_TIERS .T3,
            actionType := normalized, isKnownAction := false }
    | some tier =>
      .ok { tier := tier, tierDetails := ACTION_TIERS tier,
            actionType := normalized, isKnownAction := true }

/-- getRequiredDialLevel: the classified tier's minimum dial level. -/
def getRequiredDialLevel (actionType : String) : Except String Nat := do
  let classification ← classifyAction actionType
  return classification.tierDetails.requiredDialLevel

/-- The result record of the classifier-level isActionPermitted. -/
structure PermitResult where
  permitted : Bool
  dialLevel : Nat
  requiredLevel : Nat
  tier : ActionTier
  tierDetails : TierDetails
  actionType : String
deriving DecidableEq, Repr

/-- isActionPermitted of action-classifier.ts: integer 1..5 dial level check,
then permitted iff dialLevel ≥ requiredLevel. -/
def isActionPermitted (dialLevel : Nat) (actionType : String) : Except String PermitResult :=
  if dialLevel < 1 ∨ dialLevel > 5 then
    .error "Dial level must be an integer between 1 and 5"
  else do
    let classification ← classifyAction actionType
    let requiredLevel := classification.tierDetails.requiredDialLevel
    return { permitted := decide (requiredLevel ≤ dialLevel)
             dialLevel := dialLevel
             requiredLevel := requiredLevel
             tier := classification.tier
             tierDetails := classification.tierDetails
             actionType := classification.actionType }

-- ─── Autonomy dial service (src/unnamed/part_011) ───

/-- DialRecord of the dial store. -/
structure DialRecord where
  repoOwner : String
  repoName : String
  dialLevel : Nat
  updatedBy : Option String
  updatedAt : Option Nat
  createdAt : Option Nat
deriving DecidableEq, Repr

/-- The dial store Map, keyed "owner/repo". -/
abbrev DialStore := List (String × DialRecord)

/-- DEFAULT_DIAL_LEVEL. -/
def DEFAULT_DIAL_LEVEL : Nat := 1

/-- makeKey. -/
def makeKey (owner repo : String) : String := owner ++ "/" ++ repo

/-- DialConfig: a DialRecord view plus the isDefault marker. -/
structure DialConfig where
  repoOwner : String
  repoName : String
  dialLevel : Nat
  updatedBy : Option String
  updatedAt : Option Nat
  createdAt : Option Nat
  isDefault : Bool
deriving DecidableEq, Repr

/-- getDialLevel: the stored record, or the synthetic default (level 1,
isDefault true); throws on an empty owner or repo. -/
def getDialLevel (store : DialStore) (repoOwner repoName : String) :
    Except String DialConfig :=
  if repoOwner = "" ∨ repoName = "" then
    .error "Repository owner and name are required"
  else
    match mapGet (makeKey repoOwner repoName) store with
    | none =>
      .ok { repoOwner := repoOwner, repoName := repoName,
            dialLevel := DEFAULT_DIAL_LEVEL, updatedBy := none,
            updatedAt := none, createdAt := none, isDefault := true }
    | some record =>
      .ok { repoOwner := record.repoOwner, repoName := record.repoName,
            dialLevel := record.dialLevel, updatedBy := record.updatedBy,
            updatedAt := record.updatedAt, createdAt := record.createdAt,
            isDefault := false }

/-- setDialLevel: validates owner/repo, the integer range 1..5 and updatedBy,
overwrites any existing record, preserves the original createdAt. `now` is
the clock read of the call. -/
def setDialLevel (store : DialStore) (repoOwner repoName : String) (dialLevel : Nat)
    (updatedBy : String) (now : Nat) : Except String DialConfig × DialStore :=
  if repoOwner = "" ∨ repoName = "" then
    (.error "Repository owner and name are required", store)
  else if dialLevel < 1 ∨ dialLevel > 5 then
    (.error "Dial level must be an integer between 1 and 5", store)
  else if updatedBy = "" then
    (.error "updatedBy (GitHub user) is required", store)
  else
    let key := makeKey repoOwner repoName
    let existing := mapGet key store
    let record : DialRecord := {
      repoOwner := repoOwner, repoName := repoName, dialLevel := dialLevel,
      updatedBy := some updatedBy, updatedAt := some now,
      createdAt := some ((existing.bind DialRecord.createdAt).getD now) }
    (.ok { repoOwner := record.repoOwner, repoName := record.repoName,
           dialLevel := record.dialLevel, updatedBy := record.updatedBy,
           updatedAt := record.updatedAt, createdAt := record.createdAt,
           isDefault := false },
     mapSet key record store)

/-- getEffectiveLevel: the configured level, capped by the environment tier
maximum when one is given. -/
def getEffectiveLevel (store : DialStore) (owner repo : String)
    (envTier : Option EnvironmentTier) : Except String Nat := do
  let config ← getDialLevel store owner repo
  match envTier with
  | none => return config.dialLevel
  | some t => return min config.dialLevel (ENV_MAX_LEVELS t)

-- ─── Spec-side statistics model (the words of spec.md section 4.2, for the
-- refinement comparison of the compliance rate) ───

/-- Modelled from the spec sentence: a completed record is compliant when its
completed_at is at or before its sla_deadline, or it has no deadline. -/
def specCompliant (h : Handoff) : Bool :=
  match h.sla_deadline with
  | none => true
  | some d =>
    match h.completed_at with
    | some c => c ≤ d
    | none => false

/-- Modelled from the spec sentence: compliant completed records divided by
all completed records, times 100, rounded to 2 decimal places; 0 with no
completed records. -/
def specSlaComplianceRate (s : SvcState) : ℚ :=
  let comp := (s.handoffs.map Prod.snd).filter (fun h => h.status = .completed)
  if comp.length = 0 then 0
  else ((round ((((comp.filter specCompliant).length : ℚ) / (comp.length : ℚ) * 100) * 100) : ℚ)) / 100

-- ─── Audit-trail chain predicate and operation sequences (claim C10) ───

/-- A contiguous valid path: starting at `st`, each entry leaves the state the
previous one produced along an allowed edge, ending at `fin`; the empty list
requires st = fin. -/
def pathFrom : HandoffState → List StateChange → HandoffState → Bool
  | st, [], fin => st == fin
  | st, c :: rest, fin =>
    (c.from_state == st) && isValidTransition c.from_state c.to_state &&
      pathFrom c.to_state rest fin

/-- Every public mutating call of the handoff service, with the
nondeterministic inputs (ids, uuids, clock reads) made explicit. -/
inductive HOp where
  | create (id : String) (input : CreateHandoffInput) (meta : HandoffMetadata) (now tNow : Nat)
  | transition (id : String) (toState : HandoffState) (opts : TransitionOptions) (cid : String) (now : Nat)
  | accept (id : String) (acceptedBy : Option String) (cid : String) (now : Nat)
  | complete (id : String) (outputs : Option (List (String × JsonStr))) (cid1 cid2 : String) (now : Nat)
  | fail (id : String) (reason : String) (cid : String) (now : Nat)
  | abandon (id : String) (reason : String) (cid : String) (now : Nat)
  | update (id : String) (u : HandoffUpdates) (now : Nat)

/-- The store state after one call (a throw leaves the store as it was). -/
def runOp (s : SvcState) : HOp → SvcState
  | .create id input meta now tNow => (createHandoff s id input meta now tNow).2
  | .transition id toState opts cid now => (transitionHandoff s id toState opts cid now).2
  | .accept id acceptedBy cid now => (acceptHandoff s id acceptedBy cid now).2
  | .complete id outputs cid1 cid2 now => (completeHandoff s id outputs cid1 cid2 now).2
  | .fail id reason cid now => (failHandoff s id cid now reason).2
  | .abandon id reason cid now => (abandonHandoff s id cid now reason).2
  | .update id u now => (updateHandoff s id u now).2

/-- The store state after a sequence of calls against a fresh service. -/
def runOps (s : SvcState) (ops : List HOp) : SvcState := ops.foldl runOp s

/-- The audit-trail invariant: every stored handoff's StateChange history is
a contiguous valid path from pending to its current status (empty history
forces status pending). -/
def auditInv (s : SvcState) : Prop :=
  ∀ id : String, ∀ h : Handoff, getHandoff s id = some h →
    pathFrom .pending (getStateChangeHistory s id) h.status = true

/-- The operation sequence of the C10 witness: one create, one fast-track
complete. -/
def witnessOps : List HOp :=
  [.create "a" {} {} 0 0, .complete "a" none "c1" "c2" 5]

/-- The stored record after running witnessOps. -/
def witnessOpsHandoff : Handoff :=
  (getHandoff (runOps emptySvc witnessOps) "a").getD (createHandoff emptySvc "a" {} {} 0 0).1

-- ─── Concrete states used by counterexamples and witnesses ───

/-- A store holding one completed handoff "h1" and one pending handoff "h2". -/
def twoHandoffState : SvcState :=
  let s1 := (createHandoff emptySvc "h1" {} {} 0 0).2
  let s2 := (completeHandoff s1 "h1" none "c1" "c2" 1).2
  (createHandoff s2 "h2" {} {} 2 2).2

/-- The stats scenario store: handoff "a" completed with no deadline, handoff
"b" with deadline 5000 completed at 10000 (strictly after it). -/
def slaScenarioState : SvcState :=
  let s1 := (completeHandoff (createHandoff emptySvc "a" {} {} 0 0).2 "a" none "c1" "c2" 1000).2
  let s2 := (createHandoff s1 "b" {} { sla_deadline := some 5000 } 0 0).2
  (completeHandoff s2 "b" none "c3" "c4" 10000).2

/-- A store holding one failed handoff "w2" (failed with reason "x"). -/
def failedOnceState : SvcState :=
  (failHandoff (createHandoff emptySvc "w2" {} {} 0 0).2 "w2" "c1" 5 "x").2

/-- The stored record of failedOnceState. -/
def failedOnceHandoff : Handoff :=
  (getHandoff failedOnceState "w2").getD (createHandoff emptySvc "w2" {} {} 0 0).1

/-- The handoff record a single create against the fresh service produces. -/
def oneCreateHandoff : Handoff := (createHandoff emptySvc "a" {} {} 0 0).1

/-- The StateChange record transitionHandoff appends (same literal as in its
body, named for stating lemmas). -/
def mkStateChange (handoff_id : String) (fromState toState : HandoffState)
    (options : TransitionOptions) (change_id : String) (now : Nat) : StateChange :=
  { change_id := change_id
    handoff_id := handoff_id
    from_state := fromState
    to_state := toState
    reason := options.reason.getD "unknown"
    triggered_by := options.triggeredBy.getD "system"
    comment_id := options.commentId
    metadata := options.metadata.getD []
    created_at := now }

/-- Decidable equality on Except results, for concrete evaluation. -/
instance [DecidableEq ε] [DecidableEq α] : DecidableEq (Except ε α) := fun a b =>
  match a, b with
  | .error e1, .error e2 =>
    if h : e1 = e2 then .isTrue (by rw [h]) else .isFalse (by simp [h])
  | .ok v1, .ok v2 =>
    if h : v1 = v2 then .isTrue (by rw [h]) else .isFalse (by simp [h])
  | .error _, .ok _ => .isFalse (by simp)
  | .ok _, .error _ => .isFalse (by simp)

-- ─── Helper lemmas ───

theorem mapGet_mapSet_self (k : String) (v : α) (m : List (String × α)) :
    mapGet k (mapSet k v m) = some v := by
  induction m with
  | nil => simp [mapGet, mapSet]
  | cons hd tl ih =>
    obtain ⟨k1, v1⟩ := hd
    by_cases h : k1 = k <;> simp [mapGet, mapSet, h, ih]

theorem mapGet_mapSet_ne (k j : String) (v : α) (m : List (String × α)) (h : j ≠ k) :
    mapGet j (mapSet k v m) = mapGet j m := by
  induction m with
  | nil => simp [mapGet, mapSet, Ne.symm h]
  | cons hd tl ih =>
    obtain ⟨k1, v1⟩ := hd
    by_cases hk : k1 = k
    · subst hk
      simp [mapGet, mapSet, Ne.symm h]
    · simp [mapGet, mapSet, hk, ih]

-- ─── Claim C2 ───

/-- C2: on a handoff already stored as failed with failure_reason x, a second
failHandoff(id, y) throws the FSM InvalidTransition error and returns the
store untouched — in particular the stored record still carries
failure_reason x and the audit trail is exactly as before the call. -/
theorem terminal_guard_second_fail (s : SvcState) (id cid y x : String) (now : Nat)
    (h : Handoff) (hget : getHandoff s id = some h) (hst : h.status = .failed)
    (hreason : h.failure_reason = some x) :
    failHandoff s id cid now y = (.error "Invalid state transition: failed → failed", s) ∧
    getHandoff (failHandoff s id cid now y).2 id = some h ∧
    h.failure_reason = some x ∧
    getStateChangeHistory (failHandoff s id cid now y).2 id = getStateChangeHistory s id := by
  have key : failHandoff s id cid now y =
      (.error "Invalid state transition: failed → failed", s) := by
    simp [failHandoff, transitionHandoff, hget, hst, isValidTransition,
      VALID_TRANSITIONS, stateStr]
  exact ⟨key, by rw [key]; exact hget, hreason, by rw [key]⟩

/-- C2 witness: the concrete failed-once store. -/
theorem terminal_guard_second_fail_witness :
    failHandoff failedOnceState "w2" "c9" 7 "y" =
      (.error "Invalid state transition: failed → failed", failedOnceState) ∧
    getHandoff (failHandoff failedOnceState "w2" "c9" 7 "y").2 "w2" = some failedOnceHandoff ∧
    failedOnceHandoff.failure_reason = some "x" ∧
    getStateChangeHistory (failHandoff failedOnceState "w2" "c9" 7 "y").2 "w2" =
      getStateChangeHistory failedOnceState "w2" :=
  terminal_guard_second_fail failedOnceState "w2" "c9" "y" "x" 7 failedOnceHandoff
    (by decide) (by decide) (by decide)

-- ─── Claim C3 ───

/-- C3 (amended): transitionHandoff checks the edge with isValidTransition —
not validateTransition — so every transition out of a terminal state is
rejected, but with the uniform message "Invalid state transition: from → to",
the same format as a plain illegal edge; only the uncalled validateTransition
carries the distinguishing terminal-state message. -/
theorem transition_terminal_uniform_message (s : SvcState) (id cid : String)
    (toState : HandoffState) (opts : TransitionOptions) (now : Nat) (h : Handoff)
    (hget : getHandoff s id = some h) (hterm : isTerminalState h.status = true) :
    transitionHandoff s id toState opts cid now =
      (.error ("Invalid state transition: " ++ stateStr h.status ++ " → " ++ stateStr toState), s) ∧
    validateTransition h.status toState =
      .error ("Invalid state transition: " ++ stateStr h.status ++
        " is a terminal state, cannot transition to " ++ stateStr toState) := by
  have hv : isValidTransition h.status toState = false := by
    rcases hst : h.status with _ | _ | _ | _ <;> rw [hst] at hterm
    · exact absurd hterm (by decide)
    · exact absurd hterm (by decide)
    · cases toState <;> decide
    · cases toState <;> decide
  constructor
  · simp [transitionHandoff, hget, hv]
  · simp [validateTransition, hterm]

/-- C3 counterexample: the service's terminal-origin error is the plain-format
text, not validateTransition's terminal-state text: the completed handoff h1
yields exactly the same message shape as the plain illegal edge
pending → completed on h2, and differs from validateTransition's message, so
transitionHandoff does not surface a message distinguishing the terminal
case. -/
theorem transition_terminal_message_counterexample :
    (transitionHandoff twoHandoffState "h1" .active {} "c" 2).1 =
      .error "Invalid state transition: completed → active" ∧
    (transitionHandoff twoHandoffState "h2" .completed {} "c" 2).1 =
      .error "Invalid state transition: pending → completed" ∧
    validateTransition .completed .active =
      .error "Invalid state transition: completed is a terminal state, cannot transition to active" ∧
    ("Invalid state transition: completed → active" : String) ≠
      "Invalid state transition: completed is a terminal state, cannot transition to active" :=
  ⟨by decide, by decide, by decide, by decide⟩

/-- C3 witness: the amended theorem at the concrete completed handoff h1. -/
theorem transition_terminal_uniform_message_witness :
    transitionHandoff twoHandoffState "h1" .active {} "c" 2 =
      (.error ("Invalid state transition: " ++ stateStr HandoffState.completed ++ " → " ++
        stateStr HandoffState.active), twoHandoffState) ∧
    validateTransition HandoffState.completed HandoffState.active =
      .error ("Invalid state transition: " ++ stateStr HandoffState.completed ++
        " is a terminal state, cannot transition to " ++ stateStr HandoffState.active) := by
  have base := transition_terminal_uniform_message twoHandoffState "h1" "c" .active {} 2
    ((getHandoff twoHandoffState "h1").getD oneCreateHandoff) (by decide) (by decide)
  have hstat : ((getHandoff twoHandoffState "h1").getD oneCreateHandoff).status =
      HandoffState.completed := by decide
  rw [hstat] at base
  exact base

-- ─── Claim C4 ───

/-- C4: a never-configured repo reads as the synthetic default level 1 with
isDefault true; after setDialLevel("o","r",5,"admin") the production-capped
effective level is 3 while the uncapped effective level is the configured 5;
and in general the effective level under an environment is the configured
level capped at the environment maximum, with caps local/dev → 5,
staging → 4, production → 3. -/
theorem dial_default_and_env_cap (store : DialStore) (now : Nat)
    (hfresh : mapGet (makeKey "o" "r") store = none) :
    (∃ cfg : DialConfig, getDialLevel store "o" "r" = .ok cfg ∧
      cfg.dialLevel = 1 ∧ cfg.isDefault = true) ∧
    getEffectiveLevel (setDialLevel store "o" "r" 5 "admin" now).2 "o" "r" (some .production) = .ok 3 ∧
    getEffectiveLevel (setDialLevel store "o" "r" 5 "admin" now).2 "o" "r" none = .ok 5 ∧
    (∀ st : DialStore, ∀ o r : String, ∀ t : EnvironmentTier, ∀ cfg : DialConfig,
      getDialLevel st o r = .ok cfg →
      getEffectiveLevel st o r (some t) = .ok (min cfg.dialLevel (ENV_MAX_LEVELS t))) ∧
    ENV_MAX_LEVELS .envLocal = 5 ∧ ENV_MAX_LEVELS .dev = 5 ∧
    ENV_MAX_LEVELS .staging = 4 ∧ ENV_MAX_LEVELS .production = 3 := by
  have hset : (setDialLevel store "o" "r" 5 "admin" now).2 =
      mapSet (makeKey "o" "r") { repoOwner := "o", repoName := "r", dialLevel := 5, updatedBy := some "admin", updatedAt := some now, createdAt := some (((mapGet (makeKey "o" "r") store).bind DialRecord.createdAt).getD now) } store := by
    simp [setDialLevel]
  have hget2 : getDialLevel (setDialLevel store "o" "r" 5 "admin" now).2 "o" "r" =
      .ok { repoOwner := "o", repoName := "r", dialLevel := 5, updatedBy := some "admin", updatedAt := some now, createdAt := some now, isDefault := false } := by
    rw [hset, hfresh]
    simp [getDialLevel, mapGet_mapSet_self]
  refine ⟨?_, ?_, ?_, ?_, rfl, rfl, rfl, rfl⟩
  · exact ⟨{ repoOwner := "o", repoName := "r", dialLevel := DEFAULT_DIAL_LEVEL, updatedBy := none, updatedAt := none, createdAt := none, isDefault := true }, by simp [getDialLevel, hfresh], rfl, rfl⟩
  · simp [getEffectiveLevel, hget2, ENV_MAX_LEVELS]
  · simp [getEffectiveLevel, hget2]
  · intro st o r t cfg hcfg
    simp [getEffectiveLevel, hcfg]

/-- C4 witness: the empty dial store. -/
theorem dial_default_and_env_cap_witness :
    (∃ cfg : DialConfig, getDialLevel [] "o" "r" = .ok cfg ∧
      cfg.dialLevel = 1 ∧ cfg.isDefault = true) ∧
    getEffectiveLevel (setDialLevel [] "o" "r" 5 "admin" 0).2 "o" "r" (some .production) = .ok 3 ∧
    getEffectiveLevel (setDialLevel [] "o" "r" 5 "admin" 0).2 "o" "r" none = .ok 5 ∧
    (∀ st : DialStore, ∀ o r : String, ∀ t : EnvironmentTier, ∀ cfg : DialConfig,
      getDialLevel st o r = .ok cfg →
      getEffectiveLevel st o r (some t) = .ok (min cfg.dialLevel (ENV_MAX_LEVELS t))) ∧
    ENV_MAX_LEVELS .envLocal = 5 ∧ ENV_MAX_LEVELS .dev = 5 ∧
    ENV_MAX_LEVELS .staging = 4 ∧ ENV_MAX_LEVELS .production = 3 :=
  dial_default_and_env_cap [] 0 (by decide)

-- ─── Claim C5 ───

/-- C5: every non-empty action string absent from the catalog after the
toLowerCase().trim() normalization classifies as T3 with isKnownAction false,
requires dial level 3, and is permitted exactly at dial levels 3, 4, 5 — in
particular not at 1 or 2. -/
theorem unknown_action_conservative_default (a : String) (hne : a ≠ "")
    (hunk : List.lookup (normalizeAction a) ACTION_TYPE_MAP = none) :
    (∃ c : ClassifyResult, classifyAction a = .ok c ∧ c.tier = .T3 ∧
      c.isKnownAction = false ∧ c.actionType = normalizeAction a ∧
      c.tierDetails.requiredDialLevel = 3) ∧
    getRequiredDialLevel a = .ok 3 ∧
    (∀ d : Nat, 1 ≤ d → d ≤ 5 → ∃ r : PermitResult,
      isActionPermitted d a = .ok r ∧ r.permitted = decide (3 ≤ d) ∧
      r.requiredLevel = 3 ∧ r.tier = .T3) ∧
    (∀ r : PermitResult, isActionPermitted 1 a = .ok r → r.permitted = false) ∧
    (∀ r : PermitResult, isActionPermitted 2 a = .ok r → r.permitted = false) ∧
    (∀ r : PermitResult, isActionPermitted 3 a = .ok r → r.permitted = true) ∧
    (∀ r : PermitResult, isActionPermitted 4 a = .ok r → r.permitted = true) ∧
    (∀ r : PermitResult, isActionPermitted 5 a = .ok r → r.permitted = true) := by
  have hc : classifyAction a =
      .ok { tier := .T3, tierDetails := ACTION_TIERS .T3, actionType := normalizeAction a, isKnownAction := false } := by
    simp [classifyAction, hne, hunk]
  have hperm : ∀ d : Nat, 1 ≤ d → d ≤ 5 →
      isActionPermitted d a =
        .ok { permitted := decide (3 ≤ d), dialLevel := d, requiredLevel := 3, tier := .T3, tierDetails := ACTION_TIERS .T3, actionType := normalizeAction a } := by
    intro d h1 h5
    have hrange : ¬(d < 1 ∨ d > 5) := by omega
    simp only [isActionPermitted, if_neg hrange]
    simp [hc, ACTION_TIERS]
  refine ⟨⟨_, hc, rfl, rfl, rfl, rfl⟩, ?_, ?_, ?_, ?_, ?_, ?_, ?_⟩
  · simp [getRequiredDialLevel, hc, ACTION_TIERS]
  · intro d h1 h5
    exact ⟨_, hperm d h1 h5, rfl, rfl, rfl⟩
  · intro r hr
    rw [hperm 1 (by omega) (by omega)] at hr
    cases hr
    rfl
  · intro r hr
    rw [hperm 2 (by omega) (by omega)] at hr
    cases hr
    rfl
  · intro r hr
    rw [hperm 3 (by omega) (by omega)] at hr
    cases hr
    rfl
  · intro r hr
    rw [hperm 4 (by omega) (by omega)] at hr
    cases hr
    rfl
  · intro r hr
    rw [hperm 5 (by omega) (by omega)] at hr
    cases hr
    rfl

/-- C5 witness: the action "totally_unknown". -/
theorem unknown_action_conservative_default_witness :
    (∃ c : ClassifyResult, classifyAction "totally_unknown" = .ok c ∧ c.tier = .T3 ∧
      c.isKnownAction = false ∧ c.actionType = normalizeAction "totally_unknown" ∧
      c.tierDetails.requiredDialLevel = 3) ∧
    getRequiredDialLevel "totally_unknown" = .ok 3 :=
  ⟨(unknown_action_conservative_default "totally_unknown" (by decide) (by decide)).1,
   (unknown_action_conservative_default "totally_unknown" (by decide) (by decide)).2.1⟩

-- ─── Claim C6 ───

/-- C6: createHandoff with sla_hours 2 and no explicit deadline stores a
record readable immediately whose sla_deadline equals the Date.now() read
plus 2 hours; since the two clock reads of the one synchronous body differ
by at most the given slack, the deadline is within that slack above
created_at + 2h. -/
theorem sla_roundtrip_at_creation (s : SvcState) (id : String)
    (input : CreateHandoffInput) (meta : HandoffMetadata) (now tNow slack : Nat)
    (hh : meta.sla_hours = some 2) (hd : meta.sla_deadline = none)
    (hclock1 : now ≤ tNow) (hclock2 : tNow ≤ now + slack) :
    ∃ h : Handoff, getHandoff (createHandoff s id input meta now tNow).2 id = some h ∧
      h.created_at = now ∧ h.sla_hours = some 2 ∧
      h.sla_deadline = some (tNow + 2 * 3600000) ∧
      (∀ d : Nat, h.sla_deadline = some d →
        h.created_at + 7200000 ≤ d ∧ d ≤ h.created_at + 7200000 + slack) := by
  refine ⟨(createHandoff s id input meta now tNow).1, ?_, ?_, ?_, ?_, ?_⟩
  · simp [createHandoff, getHandoff, mapGet_mapSet_self]
  · simp [createHandoff]
  · simp [createHandoff, hh]
  · simp [createHandoff, hh, hd]
  · intro d hdl
    have h1 : (createHandoff s id input meta now tNow).1.sla_deadline =
        some (tNow + 2 * 3600000) := by simp [createHandoff, hh, hd]
    have h2 : (createHandoff s id input meta now tNow).1.created_at = now := by
      simp [createHandoff]
    rw [h1] at hdl
    cases hdl
    rw [h2]
    omega

/-- C6 witness: a fresh store, clock reads 0 and 3 with slack 5000. -/
theorem sla_roundtrip_at_creation_witness :
    ∃ h : Handoff,
      getHandoff (createHandoff emptySvc "a" {} { sla_hours := some 2 } 0 3).2 "a" = some h ∧
      h.created_at = 0 ∧ h.sla_hours = some 2 ∧
      h.sla_deadline = some (3 + 2 * 3600000) ∧
      (∀ d : Nat, h.sla_deadline = some d →
        h.created_at + 7200000 ≤ d ∧ d ≤ h.created_at + 7200000 + 5000) :=
  sla_roundtrip_at_creation emptySvc "a" {} { sla_hours := some 2 } 0 3 5000
    rfl rfl (by omega) (by omega)

-- ─── Claim C7 ───

/-- C7: abandonHandoff on an existing non-terminal handoff succeeds, leaving
status failed and failure_reason exactly "abandoned:" ++ reason with no space
after the colon; with the reason omitted it defaults to
"abandoned:PR closed or cancelled". -/
theorem abandon_prefix_format (s : SvcState) (id cid x : String) (now : Nat)
    (h : Handoff) (hget : getHandoff s id = some h)
    (hterm : isTerminalState h.status = false) :
    (∃ h2 : Handoff, ∃ s2 : SvcState, abandonHandoff s id cid now x = (.ok h2, s2) ∧
      h2.status = .failed ∧ h2.failure_reason = some ("abandoned:" ++ x) ∧
      getHandoff s2 id = some h2) ∧
    (∃ h2 : Handoff, ∃ s2 : SvcState, abandonHandoff s id cid now = (.ok h2, s2) ∧
      h2.status = .failed ∧ h2.failure_reason = some "abandoned:PR closed or cancelled") := by
  have hv : isValidTransition h.status .failed = true := by
    rcases hst : h.status with _ | _ | _ | _ <;> rw [hst] at hterm
    · decide
    · decide
    · exact absurd hterm (by decide)
    · exact absurd hterm (by decide)
  have key : ∀ r : String, ∃ h2 : Handoff, ∃ s2 : SvcState,
      abandonHandoff s id cid now r = (.ok h2, s2) ∧
      h2.status = .failed ∧ h2.failure_reason = some ("abandoned:" ++ r) ∧
      getHandoff s2 id = some h2 := by
    intro r
    refine ⟨applyTransitionUpdates h .failed { reason := some ("abandoned:" ++ r), triggeredBy := some "system" } now,
      { handoffs := mapSet id (applyTransitionUpdates h .failed { reason := some ("abandoned:" ++ r), triggeredBy := some "system" } now) s.handoffs, changes := mapSet id ((mapGet id s.changes).getD [] ++ [{ change_id := cid, handoff_id := id, from_state := h.status, to_state := .failed, reason := "abandoned:" ++ r, triggered_by := "system", comment_id := none, metadata := [], created_at := now }]) s.changes },
      ?_, rfl, rfl, ?_⟩
    · simp only [abandonHandoff, failHandoff, transitionHandoff, hget, hv, Bool.not_true,
        Bool.false_eq_true, if_false]
      rfl
    · simp [getHandoff, mapGet_mapSet_self]
  obtain ⟨h2, s2, heq, hst2, hr2, hg2⟩ := key "PR closed or cancelled"
  exact ⟨key x, ⟨h2, s2, heq, hst2, hr2⟩⟩

/-- C7 witness: the pending handoff "a" of a single create, abandoned with
reason "x". -/
theorem abandon_prefix_format_witness :
    (∃ h2 : Handoff, ∃ s2 : SvcState,
      abandonHandoff (createHandoff emptySvc "a" {} {} 0 0).2 "a" "c1" 9 "x" = (.ok h2, s2) ∧
      h2.status = .failed ∧ h2.failure_reason = some ("abandoned:" ++ "x") ∧
      getHandoff s2 "a" = some h2) ∧
    (∃ h2 : Handoff, ∃ s2 : SvcState,
      abandonHandoff (createHandoff emptySvc "a" {} {} 0 0).2 "a" "c1" 9 = (.ok h2, s2) ∧
      h2.status = .failed ∧ h2.failure_reason = some "abandoned:PR closed or cancelled") :=
  abandon_prefix_format (createHandoff emptySvc "a" {} {} 0 0).2 "a" "c1" "x" 9
    oneCreateHandoff (by decide) (by decide)

-- ─── Shared transition computation lemmas ───

theorem transitionHandoff_ok (s : SvcState) (id : String) (toState : HandoffState)
    (opts : TransitionOptions) (cid : String) (now : Nat) (h : Handoff)
    (hget : getHandoff s id = some h) (hv : isValidTransition h.status toState = true) :
    transitionHandoff s id toState opts cid now =
      (.ok (applyTransitionUpdates h toState opts now,
        { change_id := cid, handoff_id := id, from_state := h.status, to_state := toState, reason := opts.reason.getD "unknown", triggered_by := opts.triggeredBy.getD "system", comment_id := opts.commentId, metadata := opts.metadata.getD [], created_at := now }),
       { handoffs := mapSet id (applyTransitionUpdates h toState opts now) s.handoffs,
         changes := mapSet id ((mapGet id s.changes).getD [] ++
           [{ change_id := cid, handoff_id := id, from_state := h.status, to_state := toState, reason := opts.reason.getD "unknown", triggered_by := opts.triggeredBy.getD "system", comment_id := opts.commentId, metadata := opts.metadata.getD [], created_at := now }]) s.changes }) := by
  simp only [transitionHandoff, hget, hv, Bool.not_true, Bool.false_eq_true, if_false]

theorem getHandoff_createHandoff (s : SvcState) (id : String)
    (input : CreateHandoffInput) (meta : HandoffMetadata) (t0 t1 : Nat) :
    getHandoff (createHandoff s id input meta t0 t1).2 id =
      some (createHandoff s id input meta t0 t1).1 := by
  simp [createHandoff, getHandoff, mapGet_mapSet_self]

theorem history_createHandoff (s : SvcState) (id : String)
    (input : CreateHandoffInput) (meta : HandoffMetadata) (t0 t1 : Nat) :
    getStateChangeHistory (createHandoff s id input meta t0 t1).2 id = [] := by
  simp [createHandoff, getStateChangeHistory, mapGet_mapSet_self]

theorem transitionHandoff_ok_result (s : SvcState) (id : String) (toState : HandoffState)
    (opts : TransitionOptions) (cid : String) (now : Nat) (h : Handoff)
    (hget : getHandoff s id = some h) (hv : isValidTransition h.status toState = true) :
    (transitionHandoff s id toState opts cid now).1 =
      .ok (applyTransitionUpdates h toState opts now,
        mkStateChange id h.status toState opts cid now) := by
  rw [transitionHandoff_ok s id toState opts cid now h hget hv]
  rfl

theorem getHandoff_transitionHandoff_ok (s : SvcState) (id : String) (toState : HandoffState)
    (opts : TransitionOptions) (cid : String) (now : Nat) (h : Handoff)
    (hget : getHandoff s id = some h) (hv : isValidTransition h.status toState = true) :
    getHandoff (transitionHandoff s id toState opts cid now).2 id =
      some (applyTransitionUpdates h toState opts now) := by
  rw [transitionHandoff_ok s id toState opts cid now h hget hv]
  simp [getHandoff, mapGet_mapSet_self]

theorem history_transitionHandoff_ok (s : SvcState) (id : String) (toState : HandoffState)
    (opts : TransitionOptions) (cid : String) (now : Nat) (h : Handoff)
    (hget : getHandoff s id = some h) (hv : isValidTransition h.status toState = true) :
    getStateChangeHistory (transitionHandoff s id toState opts cid now).2 id =
      getStateChangeHistory s id ++ [mkStateChange id h.status toState opts cid now] := by
  rw [transitionHandoff_ok s id toState opts cid now h hget hv]
  simp only [getStateChangeHistory, mapGet_mapSet_self, Option.getD_some]
  rfl

-- ─── Claim C1 ───

theorem completeHandoff_pending (s1 : SvcState) (id cid1 cid2 : String) (t2 : Nat)
    (R : Handoff) (hget : getHandoff s1 id = some R) (hst : R.status = .pending)
    (hhist : getStateChangeHistory s1 id = []) :
    (completeHandoff s1 id none cid1 cid2 t2).1 =
      .ok (getHandoff (completeHandoff s1 id none cid1 cid2 t2).2 id) ∧
    (getHandoff (completeHandoff s1 id none cid1 cid2 t2).2 id).map Handoff.status =
      some .completed ∧
    (getStateChangeHistory (completeHandoff s1 id none cid1 cid2 t2).2 id).map
      (fun c => (c.from_state, c.to_state, c.reason)) =
      [(.pending, .active, "agent_accepted"), (.active, .completed, "work_completed")] := by
  have hv1 : isValidTransition R.status .active = true := by rw [hst]; decide
  rcases hP : transitionHandoff s1 id .active
      { reason := some "agent_accepted", triggeredBy := some "system" } cid1 t2 with ⟨p1, S1⟩
  have hp1 : p1 = .ok (applyTransitionUpdates R .active
      { reason := some "agent_accepted", triggeredBy := some "system" } t2,
      mkStateChange id R.status .active
        { reason := some "agent_accepted", triggeredBy := some "system" } cid1 t2) := by
    have := transitionHandoff_ok_result s1 id .active
      { reason := some "agent_accepted", triggeredBy := some "system" } cid1 t2 R hget hv1
    rw [hP] at this
    exact this
  subst hp1
  have hgetS1 : getHandoff S1 id = some (applyTransitionUpdates R .active
      { reason := some "agent_accepted", triggeredBy := some "system" } t2) := by
    have := getHandoff_transitionHandoff_ok s1 id .active
      { reason := some "agent_accepted", triggeredBy := some "system" } cid1 t2 R hget hv1
    rw [hP] at this
    exact this
  have hhistS1 : getStateChangeHistory S1 id =
      [mkStateChange id R.status .active
        { reason := some "agent_accepted", triggeredBy := some "system" } cid1 t2] := by
    have := history_transitionHandoff_ok s1 id .active
      { reason := some "agent_accepted", triggeredBy := some "system" } cid1 t2 R hget hv1
    rw [hP, hhist] at this
    simpa using this
  have hA : (applyTransitionUpdates R .active
      { reason := some "agent_accepted", triggeredBy := some "system" } t2).status = .active := rfl
  have hv2 : isValidTransition (applyTransitionUpdates R .active
      { reason := some "agent_accepted", triggeredBy := some "system" } t2).status .completed = true := by
    rw [hA]; decide
  rcases hQ : transitionHandoff S1 id .completed
      { reason := some "work_completed", triggeredBy := some "system" } cid2 t2 with ⟨q1, S2⟩
  have hq1 : q1 = .ok (applyTransitionUpdates (applyTransitionUpdates R .active
      { reason := some "agent_accepted", triggeredBy := some "system" } t2) .completed
      { reason := some "work_completed", triggeredBy := some "system" } t2,
      mkStateChange id (applyTransitionUpdates R .active
        { reason := some "agent_accepted", triggeredBy := some "system" } t2).status .completed
        { reason := some "work_completed", triggeredBy := some "system" } cid2 t2) := by
    have := transitionHandoff_ok_result S1 id .completed
      { reason := some "work_completed", triggeredBy := some "system" } cid2 t2 _ hgetS1 hv2
    rw [hQ] at this
    exact this
  subst hq1
  have hgetS2 : getHandoff S2 id = some (applyTransitionUpdates (applyTransitionUpdates R .active
      { reason := some "agent_accepted", triggeredBy := some "system" } t2) .completed
      { reason := some "work_completed", triggeredBy := some "system" } t2) := by
    have := getHandoff_transitionHandoff_ok S1 id .completed
      { reason := some "work_completed", triggeredBy := some "system" } cid2 t2 _ hgetS1 hv2
    rw [hQ] at this
    exact this
  have hhistS2 : getStateChangeHistory S2 id =
      [mkStateChange id R.status .active
        { reason := some "agent_accepted", triggeredBy := some "system" } cid1 t2,
       mkStateChange id (applyTransitionUpdates R .active
        { reason := some "agent_accepted", triggeredBy := some "system" } t2).status .completed
        { reason := some "work_completed", triggeredBy := some "system" } cid2 t2] := by
    have := history_transitionHandoff_ok S1 id .completed
      { reason := some "work_completed", triggeredBy := some "system" } cid2 t2 _ hgetS1 hv2
    rw [hQ, hhistS1] at this
    simpa using this
  have hcomp : completeHandoff s1 id none cid1 cid2 t2 =
      (.ok (some (applyTransitionUpdates (applyTransitionUpdates R .active
        { reason := some "agent_accepted", triggeredBy := some "system" } t2) .completed
        { reason := some "work_completed", triggeredBy := some "system" } t2)), S2) := by
    simp only [completeHandoff, hget, hst, eq_self_iff_true, if_true, hP, hQ]
  rw [hcomp]
  refine ⟨?_, ?_, ?_⟩
  · rw [hgetS2]
  · rw [hgetS2]
    rfl
  · rw [hhistS2, hst, hA]
    rfl

/-- C1: completing a freshly created handoff (status pending) returns the
stored record with status completed, and its audit trail holds exactly two
entries: pending → active with reason agent_accepted, then active → completed
with reason work_completed. -/
theorem fast_track_completion (s : SvcState) (id : String)
    (input : CreateHandoffInput) (meta : HandoffMetadata) (t0 t1 t2 : Nat)
    (cid1 cid2 : String) :
    (completeHandoff (createHandoff s id input meta t0 t1).2 id none cid1 cid2 t2).1 =
      .ok (getHandoff (completeHandoff (createHandoff s id input meta t0 t1).2 id none cid1 cid2 t2).2 id) ∧
    (getHandoff (completeHandoff (createHandoff s id input meta t0 t1).2 id none cid1 cid2 t2).2 id).map Handoff.status =
      some .completed ∧
    (getStateChangeHistory (completeHandoff (createHandoff s id input meta t0 t1).2 id none cid1 cid2 t2).2 id).map
      (fun c => (c.from_state, c.to_state, c.reason)) =
      [(.pending, .active, "agent_accepted"), (.active, .completed, "work_completed")] :=
  completeHandoff_pending (createHandoff s id input meta t0 t1).2 id cid1 cid2 t2
    (createHandoff s id input meta t0 t1).1
    (getHandoff_createHandoff s id input meta t0 t1) rfl
    (history_createHandoff s id input meta t0 t1)

-- ─── Claim C8 ───

/-- C8: getHandoffStats computes slaComplianceRate exactly as the spec
formula — completed records whose completed_at is at or before their deadline
or which have no deadline, over all completed records, times 100, rounded to
2 decimal places, and 0 with no completed records — for every store whose
completed records carry their completion timestamp (as every record completed
through a transition does); on the concrete two-handoff scenario (one
no-deadline compliant, one completed strictly after its deadline) the rate
is 50. -/
theorem sla_compliance_rate_formula (s : SvcState)
    (hts : ∀ h ∈ s.handoffs.map Prod.snd, h.status = .completed → h.completed_at.isSome = true) :
    (getHandoffStats s).slaComplianceRate = specSlaComplianceRate s ∧
    (getHandoffStats slaScenarioState).slaComplianceRate = 50 := by
  have hmain : (getHandoffStats s).slaComplianceRate = specSlaComplianceRate s := by
    have hfilter : (s.handoffs.map Prod.snd).filter isCompletedWithTimestamp =
        (s.handoffs.map Prod.snd).filter (fun h => decide (h.status = .completed)) := by
      apply List.filter_congr
      intro h hmem
      by_cases hcs : h.status = .completed
      · simp [isCompletedWithTimestamp, hcs, hts h hmem hcs]
      · simp [isCompletedWithTimestamp, hcs]
    have hsome : ∀ h ∈ (s.handoffs.map Prod.snd).filter (fun h => decide (h.status = .completed)),
        h.completed_at.isSome = true := by
      intro h hmem
      rw [List.mem_filter] at hmem
      exact hts h hmem.1 (by simpa using hmem.2)
    have hfilter2 : ((s.handoffs.map Prod.snd).filter (fun h => decide (h.status = .completed))).filter isWithinSla =
        ((s.handoffs.map Prod.snd).filter (fun h => decide (h.status = .completed))).filter specCompliant := by
      apply List.filter_congr
      intro h hmem
      have hs2 := hsome h hmem
      rcases hca : h.completed_at with _ | c
      · rw [hca] at hs2
        simp at hs2
      · cases hdl : h.sla_deadline
        · simp [isWithinSla, specCompliant, hdl]
        · simp [isWithinSla, specCompliant, hdl, hca]
    have harith : ∀ x : ℚ, x * 10000 = x * 100 * 100 := by
      intro x
      ring
    simp only [getHandoffStats, specSlaComplianceRate]
    rw [hfilter, hfilter2]
    by_cases hlen : ((s.handoffs.map Prod.snd).filter (fun h => decide (h.status = .completed))).length = 0
    · simp [hlen]
    · simp only [hlen, if_false]
      rw [harith]
  refine ⟨hmain, ?_⟩
  have hl2 : ((slaScenarioState.handoffs.map Prod.snd).filter isCompletedWithTimestamp).length = 2 := by
    decide
  have hl1 : (((slaScenarioState.handoffs.map Prod.snd).filter isCompletedWithTimestamp).filter isWithinSla).length = 1 := by
    decide
  simp only [getHandoffStats, hl1, hl2]
  norm_num

/-- C8 witness: the concrete scenario store satisfies the timestamp
hypothesis, its rate matches the spec formula and equals 50. -/
theorem sla_compliance_rate_formula_witness :
    (getHandoffStats slaScenarioState).slaComplianceRate = specSlaComplianceRate slaScenarioState ∧
    (getHandoffStats slaScenarioState).slaComplianceRate = 50 :=
  sla_compliance_rate_formula slaScenarioState (by decide)

-- ─── Claim C9 ───

/-- C9: listHandoffs accepts the legacy tracker status names — created and
initiated mean pending, accepted means active, rejected and abandoned mean
failed — the legacy name overdue (never a stored status) selects nothing,
membership in the result is exactly membership in the store passing the
status / to_agent / from_agent / repository filters, and the result is
ordered newest-created-first. -/
theorem legacy_alias_listing :
    (∀ s : SvcState, listHandoffs s { state := some "created" } = listHandoffs s { status := some "pending" }) ∧
    (∀ s : SvcState, listHandoffs s { state := some "initiated" } = listHandoffs s { status := some "pending" }) ∧
    (∀ s : SvcState, listHandoffs s { state := some "accepted" } = listHandoffs s { status := some "active" }) ∧
    (∀ s : SvcState, listHandoffs s { state := some "rejected" } = listHandoffs s { status := some "failed" }) ∧
    (∀ s : SvcState, listHandoffs s { state := some "abandoned" } = listHandoffs s { status := some "failed" }) ∧
    (∀ s : SvcState, listHandoffs s { state := some "overdue" } = []) ∧
    (∀ s : SvcState, ∀ f : HandoffFilters, ∀ h : Handoff,
      h ∈ listHandoffs s f ↔ (h ∈ s.handoffs.map Prod.snd ∧
        passesFilters (truthyStr (f.status.or (mapTrackerState f.state)))
          (truthyStr f.to_agent) (truthyStr f.from_agent)
          (truthyStr (f.repository_full_name.or f.repo)) h = true)) ∧
    (∀ s : SvcState, ∀ f : HandoffFilters, List.Sorted newestFirst (listHandoffs s f)) := by
  have hfil : ∀ l : List Handoff, l.filter (passesFilters (some "overdue") none none none) = [] := by
    intro l
    induction l with
    | nil => rfl
    | cons a t ih =>
      have ha : passesFilters (some "overdue") none none none a = false := by
        rcases hst : a.status <;> simp [passesFilters, stateStr, hst]
      simp [List.filter, ha, ih]
  refine ⟨fun s => rfl, fun s => rfl, fun s => rfl, fun s => rfl, fun s => rfl, ?_, ?_, ?_⟩
  · intro s
    have hshape : listHandoffs s { state := some "overdue" } =
        List.insertionSort newestFirst
          ((s.handoffs.map Prod.snd).filter (passesFilters (some "overdue") none none none)) := rfl
    rw [hshape, hfil]
    rfl
  · intro s f h
    simp only [listHandoffs, List.mem_insertionSort, List.mem_filter]
  · intro s f
    exact List.sorted_insertionSort newestFirst _

-- ─── Claim C10: preservation lemmas ───

theorem applyTransitionUpdates_status (h : Handoff) (toState : HandoffState)
    (opts : TransitionOptions) (now : Nat) :
    (applyTransitionUpdates h toState opts now).status = toState := by
  cases toState <;> rfl

theorem pathFrom_append (cs : List StateChange) (st fin : HandoffState) (c : StateChange)
    (hp : pathFrom st cs fin = true) (hc : c.from_state = fin)
    (hv : isValidTransition fin c.to_state = true) :
    pathFrom st (cs ++ [c]) c.to_state = true := by
  induction cs generalizing st with
  | nil =>
    have hst : st = fin := by
      have := hp
      simp [pathFrom] at this
      exact this
    subst hst
    simp [pathFrom, hc, hv]
  | cons d rest ih =>
    simp only [pathFrom, Bool.and_eq_true] at hp
    obtain ⟨⟨hd1, hd2⟩, hd3⟩ := hp
    simp only [List.cons_append, pathFrom, Bool.and_eq_true]
    exact ⟨⟨hd1, hd2⟩, ih d.to_state hd3⟩

theorem auditInv_empty : auditInv emptySvc := by
  intro id h hget
  simp [emptySvc, getHandoff, mapGet] at hget

theorem auditInv_create (s : SvcState) (id : String) (input : CreateHandoffInput)
    (meta : HandoffMetadata) (t0 t1 : Nat) (hinv : auditInv s) :
    auditInv (createHandoff s id input meta t0 t1).2 := by
  intro id2 h2 hget2
  by_cases hid : id2 = id
  · subst hid
    rw [getHandoff_createHandoff] at hget2
    cases hget2
    rw [history_createHandoff]
    rfl
  · have hget2s : getHandoff s id2 = some h2 := by
      rw [getHandoff] at hget2 ⊢
      simpa [createHandoff, mapGet_mapSet_ne id id2 _ _ hid] using hget2
    have hhist : getStateChangeHistory (createHandoff s id input meta t0 t1).2 id2 =
        getStateChangeHistory s id2 := by
      simp [createHandoff, getStateChangeHistory, mapGet_mapSet_ne id id2 _ _ hid]
    rw [hhist]
    exact hinv id2 h2 hget2s

theorem auditInv_transition (s : SvcState) (id : String) (toState : HandoffState)
    (opts : TransitionOptions) (cid : String) (now : Nat) (hinv : auditInv s) :
    auditInv (transitionHandoff s id toState opts cid now).2 := by
  rcases hg : getHandoff s id with _ | h
  · have he : (transitionHandoff s id toState opts cid now).2 = s := by
      simp [transitionHandoff, hg]
    rw [he]
    exact hinv
  · by_cases hv : isValidTransition h.status toState = true
    · rw [transitionHandoff_ok s id toState opts cid now h hg hv]
      intro id2 h2 hget2
      by_cases hid : id2 = id
      · subst hid
        rw [getHandoff] at hget2
        simp only [mapGet_mapSet_self, Option.some.injEq] at hget2
        subst hget2
        have hhist : getStateChangeHistory
            ({ handoffs := mapSet id2 (applyTransitionUpdates h toState opts now) s.handoffs,
               changes := mapSet id2 ((mapGet id2 s.changes).getD [] ++
                 [{ change_id := cid, handoff_id := id2, from_state := h.status, to_state := toState, reason := opts.reason.getD "unknown", triggered_by := opts.triggeredBy.getD "system", comment_id := opts.commentId, metadata := opts.metadata.getD [], created_at := now }]) s.changes } : SvcState) id2 =
            getStateChangeHistory s id2 ++
              [{ change_id := cid, handoff_id := id2, from_state := h.status, to_state := toState, reason := opts.reason.getD "unknown", triggered_by := opts.triggeredBy.getD "system", comment_id := opts.commentId, metadata := opts.metadata.getD [], created_at := now }] := by
          simp only [getStateChangeHistory, mapGet_mapSet_self, Option.getD_some]
        rw [hhist, applyTransitionUpdates_status]
        exact pathFrom_append (getStateChangeHistory s id2) .pending h.status _
          (hinv id2 h hg) rfl hv
      · have hget2s : getHandoff s id2 = some h2 := by
          rw [getHandoff] at hget2 ⊢
          simpa [mapGet_mapSet_ne id id2 _ _ hid] using hget2
        have hhist : getStateChangeHistory
            ({ handoffs := mapSet id (applyTransitionUpdates h toState opts now) s.handoffs,
               changes := mapSet id ((mapGet id s.changes).getD [] ++
                 [{ change_id := cid, handoff_id := id, from_state := h.status, to_state := toState, reason := opts.reason.getD "unknown", triggered_by := opts.triggeredBy.getD "system", comment_id := opts.commentId, metadata := opts.metadata.getD [], created_at := now }]) s.changes } : SvcState) id2 =
            getStateChangeHistory s id2 := by
          simp only [getStateChangeHistory]
          rw [mapGet_mapSet_ne id id2 _ _ hid]
        rw [hhist]
        exact hinv id2 h2 hget2s
    · have hvf : isValidTransition h.status toState = false := by
        simpa using hv
      have he : (transitionHandoff s id toState opts cid now).2 = s := by
        simp [transitionHandoff, hg, hvf]
      rw [he]
      exact hinv

theorem updateHandoff_changes (s : SvcState) (id : String) (u : HandoffUpdates) (now : Nat) :
    (updateHandoff s id u now).2.changes = s.changes := by
  rcases hg : mapGet id s.handoffs with _ | h <;> simp [updateHandoff, hg]

theorem auditInv_update (s : SvcState) (id : String) (u : HandoffUpdates) (now : Nat)
    (hinv : auditInv s) : auditInv (updateHandoff s id u now).2 := by
  rcases hg : mapGet id s.handoffs with _ | h
  · have he : (updateHandoff s id u now).2 = s := by
      simp [updateHandoff, hg]
    rw [he]
    exact hinv
  · intro id2 h2 hget2
    have hhist : getStateChangeHistory (updateHandoff s id u now).2 id2 =
        getStateChangeHistory s id2 := by
      simp only [getStateChangeHistory, updateHandoff_changes]
    rw [hhist]
    by_cases hid : id2 = id
    · subst hid
      have hget2u : getHandoff (updateHandoff s id2 u now).2 id2 = some h2 := hget2
      rw [getHandoff] at hget2u
      simp only [updateHandoff, hg, mapGet_mapSet_self, Option.some.injEq] at hget2u
      have hstat : h2.status = h.status := by
        rw [← hget2u]
      rw [hstat]
      exact hinv id2 h (hg : getHandoff s id2 = some h)
    · have hget2s : getHandoff s id2 = some h2 := by
        rw [getHandoff] at hget2 ⊢
        simp only [updateHandoff, hg] at hget2
        simpa [mapGet_mapSet_ne id id2 _ _ hid] using hget2
      exact hinv id2 h2 hget2s

theorem auditInv_fail (s : SvcState) (id cid : String) (now : Nat) (reason : String)
    (hinv : auditInv s) : auditInv (failHandoff s id cid now reason).2 := by
  have htr := auditInv_transition s id .failed
    { reason := some reason, triggeredBy := some "system" } cid now hinv
  rcases hQ : transitionHandoff s id .failed
      { reason := some reason, triggeredBy := some "system" } cid now with ⟨q, S1⟩
  rw [hQ] at htr
  have he : (failHandoff s id cid now reason).2 = S1 := by
    simp only [failHandoff, hQ]
    cases q <;> rfl
  rw [he]
  exact htr

theorem auditInv_abandon (s : SvcState) (id cid : String) (now : Nat) (reason : String)
    (hinv : auditInv s) : auditInv (abandonHandoff s id cid now reason).2 :=
  auditInv_fail s id cid now ("abandoned:" ++ reason) hinv

theorem auditInv_accept (s : SvcState) (id : String) (acceptedBy : Option String)
    (cid : String) (now : Nat) (hinv : auditInv s) :
    auditInv (acceptHandoff s id acceptedBy cid now).2 := by
  rcases hg : getHandoff s id with _ | h
  · have he : (acceptHandoff s id acceptedBy cid now).2 = s := by
      simp [acceptHandoff, hg]
    rw [he]
    exact hinv
  · have htr := auditInv_transition s id .active
      { reason := some "agent_accepted", triggeredBy := some (acceptedBy.getD "system"),
        metadata := some [("acceptedBy", acceptedBy.getD "")] } cid now hinv
    rcases hQ : transitionHandoff s id .active
        { reason := some "agent_accepted", triggeredBy := some (acceptedBy.getD "system"),
          metadata := some [("acceptedBy", acceptedBy.getD "")] } cid now with ⟨q, S1⟩
    rw [hQ] at htr
    have he : (acceptHandoff s id acceptedBy cid now).2 = S1 := by
      simp only [acceptHandoff, hg, hQ]
      cases q <;> rfl
    rw [he]
    exact htr

theorem auditInv_complete (s : SvcState) (id : String)
    (outs : Option (List (String × JsonStr))) (cid1 cid2 : String) (now : Nat)
    (hinv : auditInv s) : auditInv (completeHandoff s id outs cid1 cid2 now).2 := by
  rcases hg : getHandoff s id with _ | h
  · have he : (completeHandoff s id outs cid1 cid2 now).2 = s := by
      simp [completeHandoff, hg]
    rw [he]
    exact hinv
  · have hfinal : ∀ sA : SvcState, auditInv sA →
        auditInv (transitionHandoff sA id .completed
          { reason := some "work_completed", triggeredBy := some "system" } cid2 now).2 := by
      intro sA hA
      exact auditInv_transition sA id .completed
        { reason := some "work_completed", triggeredBy := some "system" } cid2 now hA
    by_cases hp : h.status = .pending
    · rcases hP : transitionHandoff s id .active
          { reason := some "agent_accepted", triggeredBy := some "system" } cid1 now with ⟨p1, S1⟩
      have hS1 : auditInv S1 := by
        have htmp := auditInv_transition s id .active
          { reason := some "agent_accepted", triggeredBy := some "system" } cid1 now hinv
        rw [hP] at htmp
        exact htmp
      cases p1 with
      | error e =>
        have he : (completeHandoff s id outs cid1 cid2 now).2 = S1 := by
          simp [completeHandoff, hg, hp, hP]
        rw [he]
        exact hS1
      | ok u =>
        rcases outs with _ | o
        · have hS3 := hfinal S1 hS1
          rcases hQ : transitionHandoff S1 id .completed
              { reason := some "work_completed", triggeredBy := some "system" } cid2 now with ⟨q, S3⟩
          rw [hQ] at hS3
          have he : (completeHandoff s id none cid1 cid2 now).2 = S3 := by
            simp only [completeHandoff, hg, hp, hP]
            simp only [eq_self_iff_true, if_true, hQ]
            cases q <;> rfl
          rw [he]
          exact hS3
        · have hupd : auditInv (updateHandoff S1 id { outputs := some o } now).2 :=
            auditInv_update S1 id { outputs := some o } now hS1
          have hS3 := hfinal (updateHandoff S1 id { outputs := some o } now).2 hupd
          rcases hQ : transitionHandoff (updateHandoff S1 id { outputs := some o } now).2 id .completed
              { reason := some "work_completed", triggeredBy := some "system" } cid2 now with ⟨q, S3⟩
          rw [hQ] at hS3
          have he : (completeHandoff s id (some o) cid1 cid2 now).2 = S3 := by
            simp only [completeHandoff, hg, hp, hP]
            simp only [eq_self_iff_true, if_true, hQ]
            cases q <;> rfl
          rw [he]
          exact hS3
    · rcases outs with _ | o
      · have hS3 := hfinal s hinv
        rcases hQ : transitionHandoff s id .completed
            { reason := some "work_completed", triggeredBy := some "system" } cid2 now with ⟨q, S3⟩
        rw [hQ] at hS3
        have he : (completeHandoff s id none cid1 cid2 now).2 = S3 := by
          simp only [completeHandoff, hg, hp, if_false, hQ]
          cases q <;> rfl
        rw [he]
        exact hS3
      · have hupd : auditInv (updateHandoff s id { outputs := some o } now).2 :=
          auditInv_update s id { outputs := some o } now hinv
        have hS3 := hfinal (updateHandoff s id { outputs := some o } now).2 hupd
        rcases hQ : transitionHandoff (updateHandoff s id { outputs := some o } now).2 id .completed
            { reason := some "work_completed", triggeredBy := some "system" } cid2 now with ⟨q, S3⟩
        rw [hQ] at hS3
        have he : (completeHandoff s id (some o) cid1 cid2 now).2 = S3 := by
          simp only [completeHandoff, hg, hp, if_false, hQ]
          cases q <;> rfl
        rw [he]
        exact hS3

theorem auditInv_runOp (s : SvcState) (op : HOp) (hinv : auditInv s) :
    auditInv (runOp s op) := by
  cases op with
  | create id input meta now tNow => exact auditInv_create s id input meta now tNow hinv
  | transition id toState opts cid now => exact auditInv_transition s id toState opts cid now hinv
  | accept id acceptedBy cid now => exact auditInv_accept s id acceptedBy cid now hinv
  | complete id outputs cid1 cid2 now => exact auditInv_complete s id outputs cid1 cid2 now hinv
  | fail id reason cid now => exact auditInv_fail s id cid now reason hinv
  | abandon id reason cid now => exact auditInv_abandon s id cid now reason hinv
  | update id u now => exact auditInv_update s id u now hinv

theorem auditInv_runOps (s : SvcState) (ops : List HOp) (hinv : auditInv s) :
    auditInv (runOps s ops) := by
  induction ops generalizing s with
  | nil => exact hinv
  | cons op rest ih => exact ih (runOp s op) (auditInv_runOp s op hinv)

-- ─── Claim C10 ───

/-- C10: after any sequence of service calls against a fresh service, every
stored handoff's StateChange history is a contiguous valid path — pathFrom
requires the first entry to leave pending, each entry to leave the state the
previous one produced along an edge of the allowed-transition table, and the
last entry to land on the record's current status; an empty history forces
status pending. -/
theorem audit_trail_chain_invariant (ops : List HOp) (id : String) (h : Handoff)
    (hget : getHandoff (runOps emptySvc ops) id = some h) :
    pathFrom .pending (getStateChangeHistory (runOps emptySvc ops) id) h.status = true :=
  auditInv_runOps emptySvc ops auditInv_empty id h hget

/-- C10 witness: one create followed by one fast-track complete. -/
theorem audit_trail_chain_invariant_witness :
    pathFrom .pending (getStateChangeHistory (runOps emptySvc witnessOps) "a")
      witnessOpsHandoff.status = true :=
  audit_trail_chain_invariant witnessOps "a" witnessOpsHandoff (by decide)
